import Mathlib

/-!
Verification of the AR startup lifecycle controller (`src/app.js`).

The controller owns three session flags (`arReady`, `modelReady`, `arStarted`),
a handful of DOM observables (overlay / guide visibility, model visibility,
status text, start-button disabled state), and reacts to lifecycle events
(`arReady`, `arError`, `model-loaded`, `targetFound`, `targetLost`, button
clicks, an 8-second stall check).  Handlers are shallowly embedded as pure
state-transition functions; outcomes of the external asynchronous calls
(camera permission request, AR-system lookup, `arSystem.start()`) are passed
in as explicit parameters.  The console is modelled as an append-only list of
messages, `alert` as a counter, and each `arSystem.start()` invocation bumps
the counter `engineStartCalls`.
-/

/-- Session state of the controller: the three flags declared at the top of
`app.js`, the DOM observables the handlers mutate, plus instrumentation for
the externally visible effects (console log, alert count, number of
`arSystem.start()` invocations). -/
structure AppState where
  arReady : Bool
  modelReady : Bool
  arStarted : Bool
  overlayDisplay : String
  guideDisplay : String
  modelVisible : String
  statusText : String
  consoleLog : List String
  alertCount : Nat
  engineStartCalls : Nat
  startBtnDisabled : Bool
deriving DecidableEq, Repr

/-- One `console.log` / `console.warn` / `console.error` call. -/
def consoleLogMsg (m : String) (s : AppState) : AppState :=
  { s with consoleLog := s.consoleLog ++ [m] }

/-- `logStatus(txt)`: sets `statusEl.textContent` and logs the message with the
`[EnterpriseAR]` prefix to the console. -/
def logStatus (txt : String) (s : AppState) : AppState :=
  consoleLogMsg ("[EnterpriseAR] " ++ txt) { s with statusText := txt }

/-- Status text the reveal transition emits. -/
def revealMsg : String := "AR ready — point camera at the image target."

/-- Status text emitted when `arSystem.start()` rejects. -/
def startFailMsg : String := "AR start failed. Is camera permission granted?"

/-- Status text emitted when the MindAR system is not present on the scene. -/
def noSystemMsg : String := "Error: AR system not available."

/-- Status text of the 8-second stall hint. -/
def stallMsg : String :=
  "Waiting for camera — if nothing happens, enable camera permission and reload."

/-- `checkHideOverlay()`: when both flags are true, hide the overlay, show the
guide and emit the ready status. -/
def checkHideOverlay (s : AppState) : AppState :=
  if s.arReady && s.modelReady then
    logStatus revealMsg { s with overlayDisplay := "none", guideDisplay := "block" }
  else s

/-- The `arReady` scene listener: set `arReady`, log, recompute. -/
def onArReady (s : AppState) : AppState :=
  checkHideOverlay (logStatus "AR engine ready." { s with arReady := true })

/-- The `model-loaded` listener on the glTF model: set `modelReady`, log,
recompute. -/
def onModelLoaded (s : AppState) : AppState :=
  checkHideOverlay (consoleLogMsg "Model loaded" { s with modelReady := true })

/-- The `arError` scene listener: log the error, set the failure status text,
raise a blocking alert. -/
def onArError (s : AppState) : AppState :=
  let s1 := consoleLogMsg "MindAR arError" s
  let s2 := logStatus "AR engine error — camera unavailable or permission denied." s1
  { s2 with alertCount := s2.alertCount + 1 }

/-- The `targetFound` listener: show the model, hide the guide. -/
def onTargetFound (s : AppState) : AppState :=
  { s with modelVisible := "true", guideDisplay := "none" }

/-- The `targetLost` listener: hide the model, show the guide. -/
def onTargetLost (s : AppState) : AppState :=
  { s with modelVisible := "false", guideDisplay := "block" }

/-- `warmCameraPermission()`: best-effort `getUserMedia` probe.
`mediaDevicesAvailable` models whether `navigator.mediaDevices.getUserMedia`
exists; `permissionResult` the outcome of the permission request.  Every
failure is caught and only logged; the function returns normally in all
cases. -/
def warmCameraPermission (mediaDevicesAvailable : Bool)
    (permissionResult : Except String Unit) (s : AppState) : AppState :=
  if !mediaDevicesAvailable then s
  else
    match permissionResult with
    | Except.ok _ => consoleLogMsg "Camera permission warmed" s
    | Except.error e => consoleLogMsg ("warmCameraPermission failed: " ++ e) s

/-- `startAR()`: the guarded engine start.  `arSystemAvailable` models whether
`scene.systems` yields the MindAR system; `startOutcome` the result of
`await arSystem.start()` (each such invocation increments
`engineStartCalls`). -/
def startAR (arSystemAvailable : Bool) (startOutcome : Except String Unit)
    (s : AppState) : AppState :=
  if s.arStarted then s
  else
    let s1 := logStatus "Starting AR engine — initializing camera..."
      { s with arStarted := true }
    if arSystemAvailable then
      let s2 := { s1 with engineStartCalls := s1.engineStartCalls + 1 }
      match startOutcome with
      | Except.ok _ => s2
      | Except.error e =>
          logStatus startFailMsg
            (consoleLogMsg ("arSystem.start() failed " ++ e) s2)
    else
      logStatus noSystemMsg s1

/-- The start-button click handler: disable the button, log, warm the camera
permission, then delegate to `startAR`. -/
def startBtnClick (mediaDevicesAvailable : Bool)
    (permissionResult : Except String Unit) (arSystemAvailable : Bool)
    (startOutcome : Except String Unit) (s : AppState) : AppState :=
  startAR arSystemAvailable startOutcome
    (warmCameraPermission mediaDevicesAvailable permissionResult
      (logStatus "Requesting camera access (user gesture) ..."
        { s with startBtnDisabled := true }))

/-- The preview-button click handler only opens `preview.html` in a new tab;
it touches none of the modelled state. -/
def previewClick (s : AppState) : AppState := s

/-- The 8-second post-load timeout body: if the engine has not signalled
readiness, emit the informational stall hint. -/
def stallCheck (s : AppState) : AppState :=
  if !s.arReady then logStatus stallMsg s else s

/-- Every operation of the controller, with the outcomes of the external
asynchronous calls carried as event parameters. -/
inductive Event where
  | engineReady
  | assetReady
  | engineError
  | targetFound
  | targetLost
  | requestStart (arSystemAvailable : Bool) (startOutcome : Except String Unit)
  | startClick (mediaDevicesAvailable : Bool)
      (permissionResult : Except String Unit) (arSystemAvailable : Bool)
      (startOutcome : Except String Unit)
  | previewClick
  | stall

/-- Dispatch one event to its handler. -/
def step : Event → AppState → AppState
  | Event.engineReady, s => onArReady s
  | Event.assetReady, s => onModelLoaded s
  | Event.engineError, s => onArError s
  | Event.targetFound, s => onTargetFound s
  | Event.targetLost, s => onTargetLost s
  | Event.requestStart a o, s => startAR a o s
  | Event.startClick m p a o, s => startBtnClick m p a o s
  | Event.previewClick, s => previewClick s
  | Event.stall, s => stallCheck s

/-- Run a sequence of events (the host event loop delivers them in order,
run-to-completion). -/
def run : List Event → AppState → AppState
  | [], s => s
  | e :: evs, s => run evs (step e s)

/-- The two readiness signals, for reasoning about sequences made of
`onEngineReady` / `onAssetReady` calls only. -/
inductive ReadyEvent where
  | engineReady
  | assetReady
deriving DecidableEq, Repr

/-- Dispatch a readiness signal. -/
def stepReady : ReadyEvent → AppState → AppState
  | ReadyEvent.engineReady, s => onArReady s
  | ReadyEvent.assetReady, s => onModelLoaded s

/-- Run a sequence of readiness signals. -/
def runReady : List ReadyEvent → AppState → AppState
  | [], s => s
  | e :: evs, s => runReady evs (stepReady e s)

/-- Is this signal the engine-ready one? -/
def ReadyEvent.isEngine : ReadyEvent → Bool
  | ReadyEvent.engineReady => true
  | ReadyEvent.assetReady => false

/-- Is this signal the asset-ready one? -/
def ReadyEvent.isAsset : ReadyEvent → Bool
  | ReadyEvent.engineReady => false
  | ReadyEvent.assetReady => true

/-- One call to `startAR` with the outcomes of its external calls. -/
structure StartCall where
  arSystemAvailable : Bool
  startOutcome : Except String Unit
deriving Repr

/-- Run a sequence of `startAR` calls. -/
def runStartCalls : List StartCall → AppState → AppState
  | [], s => s
  | c :: cs, s => runStartCalls cs (startAR c.arSystemAvailable c.startOutcome s)

/-- The state at page load: the three flags are initialised `false` in the
source; the DOM observables start at the host page's initial values (the
overlay visible, the guide hidden, the model invisible), the console empty,
no alert raised, no engine start yet. -/
def initState : AppState :=
  { arReady := false
    modelReady := false
    arStarted := false
    overlayDisplay := "flex"
    guideDisplay := "none"
    modelVisible := "false"
    statusText := ""
    consoleLog := []
    alertCount := 0
    engineStartCalls := 0
    startBtnDisabled := false }

/-- A state in which all three flags are already set. -/
def readyState : AppState :=
  { initState with arReady := true, modelReady := true, arStarted := true }

/-- Everything externally observable about a state except the console log:
flags, DOM observables, alert count, engine-start count, button state. -/
def obs (s : AppState) :
    Bool × Bool × Bool × String × String × String × String × Nat × Nat × Bool :=
  (s.arReady, s.modelReady, s.arStarted, s.overlayDisplay, s.guideDisplay,
   s.modelVisible, s.statusText, s.alertCount, s.engineStartCalls,
   s.startBtnDisabled)

/-! ### Frame lemmas for the individual handlers -/

lemma checkHideOverlay_arReady (s : AppState) :
    (checkHideOverlay s).arReady = s.arReady := by
  unfold checkHideOverlay logStatus consoleLogMsg; split <;> rfl

lemma checkHideOverlay_modelReady (s : AppState) :
    (checkHideOverlay s).modelReady = s.modelReady := by
  unfold checkHideOverlay logStatus consoleLogMsg; split <;> rfl

lemma checkHideOverlay_arStarted (s : AppState) :
    (checkHideOverlay s).arStarted = s.arStarted := by
  unfold checkHideOverlay logStatus consoleLogMsg; split <;> rfl

lemma checkHideOverlay_engineStartCalls (s : AppState) :
    (checkHideOverlay s).engineStartCalls = s.engineStartCalls := by
  unfold checkHideOverlay logStatus consoleLogMsg; split <;> rfl

lemma onArReady_arReady (s : AppState) : (onArReady s).arReady = true := by
  unfold onArReady; rw [checkHideOverlay_arReady]; rfl

lemma onArReady_modelReady (s : AppState) :
    (onArReady s).modelReady = s.modelReady := by
  unfold onArReady; rw [checkHideOverlay_modelReady]; rfl

lemma onArReady_arStarted (s : AppState) :
    (onArReady s).arStarted = s.arStarted := by
  unfold onArReady; rw [checkHideOverlay_arStarted]; rfl

lemma onArReady_engineStartCalls (s : AppState) :
    (onArReady s).engineStartCalls = s.engineStartCalls := by
  unfold onArReady; rw [checkHideOverlay_engineStartCalls]; rfl

lemma onModelLoaded_arReady (s : AppState) :
    (onModelLoaded s).arReady = s.arReady := by
  unfold onModelLoaded; rw [checkHideOverlay_arReady]; rfl

lemma onModelLoaded_modelReady (s : AppState) :
    (onModelLoaded s).modelReady = true := by
  unfold onModelLoaded; rw [checkHideOverlay_modelReady]; rfl

lemma onModelLoaded_arStarted (s : AppState) :
    (onModelLoaded s).arStarted = s.arStarted := by
  unfold onModelLoaded; rw [checkHideOverlay_arStarted]; rfl

lemma onModelLoaded_engineStartCalls (s : AppState) :
    (onModelLoaded s).engineStartCalls = s.engineStartCalls := by
  unfold onModelLoaded; rw [checkHideOverlay_engineStartCalls]; rfl

lemma warmCameraPermission_obs (m : Bool) (p : Except String Unit)
    (s : AppState) : obs (warmCameraPermission m p s) = obs s := by
  cases m <;> cases p <;> rfl

lemma startAR_noop (a : Bool) (o : Except String Unit) (s : AppState)
    (h : s.arStarted = true) : startAR a o s = s := by
  unfold startAR; rw [h]; rfl

lemma startAR_arStarted (a : Bool) (o : Except String Unit) (s : AppState) :
    (startAR a o s).arStarted = true ∨ startAR a o s = s ∧ s.arStarted = false := by
  by_cases h : s.arStarted = true
  · exact Or.inl (by rw [startAR_noop a o s h]; exact h)
  · left
    unfold startAR
    rw [Bool.not_eq_true] at h
    rw [h]
    cases a <;> cases o <;> rfl

lemma startAR_arStarted_of_false (a : Bool) (o : Except String Unit)
    (s : AppState) (h : s.arStarted = false) :
    (startAR a o s).arStarted = true := by
  unfold startAR; rw [h]; cases a <;> cases o <;> rfl

lemma startAR_arReady (a : Bool) (o : Except String Unit) (s : AppState) :
    (startAR a o s).arReady = s.arReady := by
  unfold startAR; cases h : s.arStarted <;> simp <;> cases a <;> cases o <;> rfl

lemma startAR_modelReady (a : Bool) (o : Except String Unit) (s : AppState) :
    (startAR a o s).modelReady = s.modelReady := by
  unfold startAR; cases h : s.arStarted <;> simp <;> cases a <;> cases o <;> rfl

lemma startAR_calls_of_false (a : Bool) (o : Except String Unit) (s : AppState)
    (h : s.arStarted = false) :
    (startAR a o s).engineStartCalls =
      s.engineStartCalls + (if a then 1 else 0) := by
  unfold startAR; rw [h]; cases a <;> cases o <;> rfl

lemma startBtnClick_eq (m : Bool) (p : Except String Unit) (a : Bool)
    (o : Except String Unit) (s : AppState) :
    startBtnClick m p a o s =
      startAR a o (warmCameraPermission m p
        (logStatus "Requesting camera access (user gesture) ..."
          { s with startBtnDisabled := true })) := rfl

lemma warmCameraPermission_arStarted (m : Bool) (p : Except String Unit)
    (s : AppState) : (warmCameraPermission m p s).arStarted = s.arStarted := by
  cases m <;> cases p <;> rfl

lemma warmCameraPermission_arReady (m : Bool) (p : Except String Unit)
    (s : AppState) : (warmCameraPermission m p s).arReady = s.arReady := by
  cases m <;> cases p <;> rfl

lemma warmCameraPermission_modelReady (m : Bool) (p : Except String Unit)
    (s : AppState) : (warmCameraPermission m p s).modelReady = s.modelReady := by
  cases m <;> cases p <;> rfl

lemma warmCameraPermission_calls (m : Bool) (p : Except String Unit)
    (s : AppState) :
    (warmCameraPermission m p s).engineStartCalls = s.engineStartCalls := by
  cases m <;> cases p <;> rfl

lemma stallCheck_flags (s : AppState) :
    (stallCheck s).arReady = s.arReady ∧
    (stallCheck s).modelReady = s.modelReady ∧
    (stallCheck s).arStarted = s.arStarted ∧
    (stallCheck s).engineStartCalls = s.engineStartCalls := by
  unfold stallCheck logStatus consoleLogMsg; split <;> exact ⟨rfl, rfl, rfl, rfl⟩

lemma onArError_frame (s : AppState) :
    (onArError s).arReady = s.arReady ∧
    (onArError s).modelReady = s.modelReady ∧
    (onArError s).arStarted = s.arStarted ∧
    (onArError s).engineStartCalls = s.engineStartCalls := ⟨rfl, rfl, rfl, rfl⟩

/-! ### Runs of readiness signals -/

lemma runReady_arReady (evs : List ReadyEvent) (s : AppState) :
    (runReady evs s).arReady = (s.arReady || evs.any ReadyEvent.isEngine) := by
  induction evs generalizing s with
  | nil => simp [runReady]
  | cons e evs ih =>
      cases e with
      | engineReady =>
          simp [runReady, stepReady, ih, onArReady_arReady, ReadyEvent.isEngine]
      | assetReady =>
          simp [runReady, stepReady, ih, onModelLoaded_arReady, ReadyEvent.isEngine]

lemma runReady_modelReady (evs : List ReadyEvent) (s : AppState) :
    (runReady evs s).modelReady = (s.modelReady || evs.any ReadyEvent.isAsset) := by
  induction evs generalizing s with
  | nil => simp [runReady]
  | cons e evs ih =>
      cases e with
      | engineReady =>
          simp [runReady, stepReady, ih, onArReady_modelReady, ReadyEvent.isAsset]
      | assetReady =>
          simp [runReady, stepReady, ih, onModelLoaded_modelReady, ReadyEvent.isAsset]

lemma any_isEngine_iff (evs : List ReadyEvent) :
    evs.any ReadyEvent.isEngine = true ↔ ReadyEvent.engineReady ∈ evs := by
  rw [List.any_eq_true]
  constructor
  · rintro ⟨x, hx, he⟩
    cases x with
    | engineReady => exact hx
    | assetReady => exact absurd he (by simp [ReadyEvent.isEngine])
  · intro h
    exact ⟨ReadyEvent.engineReady, h, rfl⟩

lemma any_isAsset_iff (evs : List ReadyEvent) :
    evs.any ReadyEvent.isAsset = true ↔ ReadyEvent.assetReady ∈ evs := by
  rw [List.any_eq_true]
  constructor
  · rintro ⟨x, hx, he⟩
    cases x with
    | engineReady => exact absurd he (by simp [ReadyEvent.isAsset])
    | assetReady => exact hx
  · intro h
    exact ⟨ReadyEvent.assetReady, h, rfl⟩

/-- When a readiness step ends with both flags true, that step has just
(re)fired the reveal transition. -/
lemma stepReady_reveal (e : ReadyEvent) (s : AppState)
    (h : ((stepReady e s).arReady && (stepReady e s).modelReady) = true) :
    (stepReady e s).overlayDisplay = "none" ∧
    (stepReady e s).guideDisplay = "block" ∧
    (stepReady e s).statusText = revealMsg := by
  cases e with
  | engineReady =>
      have hm : s.modelReady = true := by
        have := h
        rw [stepReady, onArReady_arReady, onArReady_modelReady] at this
        simpa using this
      simp [stepReady, onArReady, checkHideOverlay, logStatus, consoleLogMsg, hm]
  | assetReady =>
      have ha : s.arReady = true := by
        have := h
        rw [stepReady, onModelLoaded_arReady, onModelLoaded_modelReady] at this
        simpa using this
      simp [stepReady, onModelLoaded, checkHideOverlay, logStatus, consoleLogMsg, ha]

/-- When a readiness step ends with some flag still false, the overlay and the
guide are untouched by that step. -/
lemma stepReady_no_fire (e : ReadyEvent) (s : AppState)
    (h : ((stepReady e s).arReady && (stepReady e s).modelReady) = false) :
    (stepReady e s).overlayDisplay = s.overlayDisplay ∧
    (stepReady e s).guideDisplay = s.guideDisplay := by
  cases e with
  | engineReady =>
      have hm : s.modelReady = false := by
        have := h
        rw [stepReady, onArReady_arReady, onArReady_modelReady] at this
        simpa using this
      simp [stepReady, onArReady, checkHideOverlay, logStatus, consoleLogMsg, hm]
  | assetReady =>
      have ha : s.arReady = false := by
        have := h
        rw [stepReady, onModelLoaded_arReady, onModelLoaded_modelReady] at this
        simpa using this
      simp [stepReady, onModelLoaded, checkHideOverlay, logStatus, consoleLogMsg, ha]

/-- Once both flags are true and the reveal UI state is in place, every further
readiness signal re-fires the reveal declaratively: the UI target state is an
invariant. -/
lemma runReady_revealed (evs : List ReadyEvent) (s : AppState)
    (ha : s.arReady = true) (hm : s.modelReady = true)
    (ho : s.overlayDisplay = "none") (hg : s.guideDisplay = "block")
    (hs : s.statusText = revealMsg) :
    (runReady evs s).overlayDisplay = "none" ∧
    (runReady evs s).guideDisplay = "block" ∧
    (runReady evs s).statusText = revealMsg := by
  induction evs generalizing s with
  | nil => exact ⟨ho, hg, hs⟩
  | cons e evs ih =>
      have hboth : ((stepReady e s).arReady && (stepReady e s).modelReady) = true := by
        cases e with
        | engineReady =>
            simp [stepReady, onArReady_arReady, onArReady_modelReady, hm]
        | assetReady =>
            simp [stepReady, onModelLoaded_arReady, onModelLoaded_modelReady, ha]
      obtain ⟨h1, h2, h3⟩ := stepReady_reveal e s hboth
      rw [Bool.and_eq_true] at hboth
      exact ih (stepReady e s) hboth.1 hboth.2 h1 h2 h3

/-- If the run starts with at least one flag false and ends with both true,
the reveal UI state is in place at the end. -/
lemma runReady_fires (evs : List ReadyEvent) (s : AppState)
    (h : s.arReady = false ∨ s.modelReady = false)
    (hboth : ((runReady evs s).arReady && (runReady evs s).modelReady) = true) :
    (runReady evs s).overlayDisplay = "none" ∧
    (runReady evs s).guideDisplay = "block" ∧
    (runReady evs s).statusText = revealMsg := by
  induction evs generalizing s with
  | nil =>
      rw [Bool.and_eq_true] at hboth
      rcases h with h | h
      · rw [show runReady [] s = s from rfl] at hboth
        exact absurd hboth.1 (by rw [h]; exact Bool.false_ne_true)
      · rw [show runReady [] s = s from rfl] at hboth
        exact absurd hboth.2 (by rw [h]; exact Bool.false_ne_true)
  | cons e evs ih =>
      by_cases hc : ((stepReady e s).arReady && (stepReady e s).modelReady) = true
      · obtain ⟨h1, h2, h3⟩ := stepReady_reveal e s hc
        rw [Bool.and_eq_true] at hc
        exact runReady_revealed evs (stepReady e s) hc.1 hc.2 h1 h2 h3
      · have h' : (stepReady e s).arReady = false ∨ (stepReady e s).modelReady = false := by
          rcases Bool.eq_false_or_eq_true (stepReady e s).arReady with hx | hx
          · rcases Bool.eq_false_or_eq_true (stepReady e s).modelReady with hy | hy
            · exact absurd (by rw [hx, hy]; rfl) hc
            · exact Or.inr hy
          · exact Or.inl hx
        exact ih (stepReady e s) h' hboth

/-- If the run ends with some flag still false, the overlay and the guide never
changed. -/
lemma runReady_overlay_stable (evs : List ReadyEvent) (s : AppState)
    (hboth : ((runReady evs s).arReady && (runReady evs s).modelReady) = false) :
    (runReady evs s).overlayDisplay = s.overlayDisplay ∧
    (runReady evs s).guideDisplay = s.guideDisplay := by
  induction evs generalizing s with
  | nil => exact ⟨rfl, rfl⟩
  | cons e evs ih =>
      have hc : ((stepReady e s).arReady && (stepReady e s).modelReady) = false := by
        by_cases hx : ((stepReady e s).arReady && (stepReady e s).modelReady) = true
        · rw [Bool.and_eq_true] at hx
          have hA : (runReady evs (stepReady e s)).arReady = true := by
            rw [runReady_arReady, hx.1]; rfl
          have hM : (runReady evs (stepReady e s)).modelReady = true := by
            rw [runReady_modelReady, hx.2]; rfl
          rw [show runReady (e :: evs) s = runReady evs (stepReady e s) from rfl,
            hA, hM] at hboth
          exact absurd hboth (by simp)
        · exact Bool.eq_false_iff.mpr hx
      obtain ⟨h1, h2⟩ := stepReady_no_fire e s hc
      obtain ⟨h3, h4⟩ := ih (stepReady e s) hboth
      exact ⟨h3.trans h1, h4.trans h2⟩

/-- C1: over every sequence of `onEngineReady` (the scene `arReady` handler)
and `onAssetReady` (the `model-loaded` handler) calls, started from a state
where both flags are false and the overlay is visible, the reveal transition
(overlay hidden, guidance shown, ready status emitted) is observed at the end
if and only if the sequence contains both signals, independent of their
order. -/
theorem reveal_iff_both_signals (evs : List ReadyEvent) (s : AppState)
    (h1 : s.arReady = false) (h2 : s.modelReady = false)
    (h3 : s.overlayDisplay ≠ "none") :
    ((runReady evs s).overlayDisplay = "none" ↔
      (ReadyEvent.engineReady ∈ evs ∧ ReadyEvent.assetReady ∈ evs)) ∧
    (ReadyEvent.engineReady ∈ evs ∧ ReadyEvent.assetReady ∈ evs →
      (runReady evs s).guideDisplay = "block" ∧
      (runReady evs s).statusText = revealMsg) := by
  have hA : (runReady evs s).arReady = evs.any ReadyEvent.isEngine := by
    rw [runReady_arReady, h1]; exact Bool.false_or _
  have hM : (runReady evs s).modelReady = evs.any ReadyEvent.isAsset := by
    rw [runReady_modelReady, h2]; exact Bool.false_or _
  constructor
  · constructor
    · intro hov
      by_cases hb : ((runReady evs s).arReady && (runReady evs s).modelReady) = true
      · rw [Bool.and_eq_true] at hb
        exact ⟨(any_isEngine_iff evs).mp (hA ▸ hb.1),
          (any_isAsset_iff evs).mp (hM ▸ hb.2)⟩
      · have hb' := Bool.eq_false_iff.mpr hb
        obtain ⟨ho, _⟩ := runReady_overlay_stable evs s hb'
        exact absurd (ho ▸ hov) h3
    · rintro ⟨he, ha⟩
      have hb : ((runReady evs s).arReady && (runReady evs s).modelReady) = true := by
        rw [hA, hM, (any_isEngine_iff evs).mpr he, (any_isAsset_iff evs).mpr ha]; rfl
      exact (runReady_fires evs s (Or.inl h1) hb).1
  · rintro ⟨he, ha⟩
    have hb : ((runReady evs s).arReady && (runReady evs s).modelReady) = true := by
      rw [hA, hM, (any_isEngine_iff evs).mpr he, (any_isAsset_iff evs).mpr ha]; rfl
    obtain ⟨_, hg, hs⟩ := runReady_fires evs s (Or.inl h1) hb
    exact ⟨hg, hs⟩

/-- Witness for C1: with the asset signal arriving before the engine signal,
the reveal fires; applied to `reveal_iff_both_signals` at a concrete input. -/
theorem reveal_iff_both_signals_witness :
    (runReady [ReadyEvent.assetReady, ReadyEvent.engineReady] initState).overlayDisplay
      = "none" :=
  (reveal_iff_both_signals [ReadyEvent.assetReady, ReadyEvent.engineReady]
      initState rfl rfl (by decide)).1.mpr ⟨by decide, by decide⟩

/-! ### Sequences of startAR calls -/

lemma runStartCalls_noop (cs : List StartCall) (s : AppState)
    (h : s.arStarted = true) : runStartCalls cs s = s := by
  induction cs with
  | nil => rfl
  | cons c cs ih =>
      rw [show runStartCalls (c :: cs) s
          = runStartCalls cs (startAR c.arSystemAvailable c.startOutcome s) from rfl,
        startAR_noop _ _ s h, ih]

/-- C2 as stated is false: two `requestStart` calls need not produce exactly
one engine-start invocation — when the MindAR system is missing from the scene
on the first call, `arSystem.start()` is never invoked at all, even if the
system is available by the second call. -/
theorem requestStart_twice_counterexample :
    (runStartCalls
        [{ arSystemAvailable := false, startOutcome := Except.ok () },
         { arSystemAvailable := true, startOutcome := Except.ok () }]
        initState).engineStartCalls = 0 ∧ (0 : Nat) ≠ 1 := by
  exact ⟨rfl, by decide⟩

/-- C2 (amended): for every sequence of two or more `requestStart` (`startAR`)
calls from a fresh session, the engine-start operation is invoked at most
once — exactly once when the AR system is available at the first call, zero
times otherwise — and every call after the first is a no-op, because the
first call set `started`. -/
theorem requestStart_at_most_one_start (c : StartCall) (cs : List StartCall)
    (s : AppState) (h1 : s.arStarted = false) (h2 : s.engineStartCalls = 0) :
    (runStartCalls (c :: cs) s).engineStartCalls
      = (if c.arSystemAvailable then 1 else 0) ∧
    (runStartCalls (c :: cs) s).engineStartCalls ≤ 1 ∧
    runStartCalls cs (startAR c.arSystemAvailable c.startOutcome s)
      = startAR c.arSystemAvailable c.startOutcome s := by
  have hstarted : (startAR c.arSystemAvailable c.startOutcome s).arStarted = true :=
    startAR_arStarted_of_false _ _ s h1
  have hnoop := runStartCalls_noop cs _ hstarted
  have hcalls : (startAR c.arSystemAvailable c.startOutcome s).engineStartCalls
      = (if c.arSystemAvailable then 1 else 0) := by
    rw [startAR_calls_of_false _ _ s h1, h2, Nat.zero_add]
  refine ⟨?_, ?_, hnoop⟩
  · rw [show runStartCalls (c :: cs) s
        = runStartCalls cs (startAR c.arSystemAvailable c.startOutcome s) from rfl,
      hnoop, hcalls]
  · rw [show runStartCalls (c :: cs) s
        = runStartCalls cs (startAR c.arSystemAvailable c.startOutcome s) from rfl,
      hnoop, hcalls]
    cases c.arSystemAvailable <;> simp

/-- Witness for the amended C2: two `requestStart` calls with the AR system
available give exactly one engine-start invocation. -/
theorem requestStart_at_most_one_start_witness :
    (runStartCalls
        [{ arSystemAvailable := true, startOutcome := Except.ok () },
         { arSystemAvailable := true, startOutcome := Except.ok () }]
        initState).engineStartCalls = 1 := by
  have h := requestStart_at_most_one_start
    { arSystemAvailable := true, startOutcome := Except.ok () }
    [{ arSystemAvailable := true, startOutcome := Except.ok () }]
    initState rfl rfl
  simpa using h.1

/-- C3: when `arSystem.start()` rejects, `startAR` emits the failure status
text, leaves `started` at `true` (no reset), and any subsequent `startAR` call
is a complete no-op — in particular the engine-start operation is not invoked
a second time. -/
theorem startAR_failure_terminal (e : String) (a2 : Bool)
    (o2 : Except String Unit) (s : AppState) (h : s.arStarted = false) :
    (startAR true (Except.error e) s).statusText = startFailMsg ∧
    (startAR true (Except.error e) s).arStarted = true ∧
    (startAR true (Except.error e) s).engineStartCalls = s.engineStartCalls + 1 ∧
    startAR a2 o2 (startAR true (Except.error e) s)
      = startAR true (Except.error e) s := by
  have h1 : (startAR true (Except.error e) s).statusText = startFailMsg := by
    unfold startAR; rw [h]; rfl
  have h2 : (startAR true (Except.error e) s).arStarted = true := by
    unfold startAR; rw [h]; rfl
  have h3 : (startAR true (Except.error e) s).engineStartCalls
      = s.engineStartCalls + 1 := by
    unfold startAR; rw [h]; rfl
  exact ⟨h1, h2, h3, startAR_noop a2 o2 _ h2⟩

/-- Witness for C3: applied at a fresh session with a rejecting engine start
and a second call afterwards. -/
theorem startAR_failure_terminal_witness :
    (startAR true (Except.error "NotAllowedError") initState).statusText
      = startFailMsg ∧
    (startAR true (Except.ok ())
        (startAR true (Except.error "NotAllowedError") initState)).engineStartCalls
      = 1 := by
  have h := startAR_failure_terminal "NotAllowedError" true (Except.ok ())
    initState rfl
  exact ⟨h.1, by rw [h.2.2.2, h.2.2.1]; rfl⟩

/-- C4: the camera warm-up is best-effort.  Its own effect never touches the
flags, the UI or the counters (only the console log), the click handler's
result is — apart from the console log — identical for any two permission
outcomes, and whenever the session is fresh and the AR system is present the
engine start is attempted regardless of the permission outcome. -/
theorem warmCameraPermission_best_effort (m : Bool) (p q : Except String Unit)
    (a : Bool) (o : Except String Unit) (s : AppState)
    (h : s.arStarted = false) :
    obs (warmCameraPermission m p s) = obs s ∧
    obs (startBtnClick m p a o s) = obs (startBtnClick m q a o s) ∧
    (a = true → (startBtnClick m p a o s).engineStartCalls
      = s.engineStartCalls + 1) := by
  refine ⟨warmCameraPermission_obs m p s, ?_, ?_⟩
  · cases m <;> cases p <;> cases q <;> cases a <;> cases o <;>
      simp [obs, startBtnClick, startAR, warmCameraPermission, logStatus,
        consoleLogMsg, h]
  · intro ha
    subst ha
    cases m <;> cases p <;> cases o <;>
      simp [startBtnClick, startAR, warmCameraPermission, logStatus,
        consoleLogMsg, h]

/-- Witness for C4: a denied permission still leads to the engine-start
attempt. -/
theorem warmCameraPermission_best_effort_witness :
    (startBtnClick true (Except.error "NotAllowedError") true (Except.ok ())
        initState).engineStartCalls = 1 := by
  have h := warmCameraPermission_best_effort true
    (Except.error "NotAllowedError") (Except.ok ()) true (Except.ok ())
    initState rfl
  simpa using h.2.2 rfl

/-! ### Single-handler properties -/

/-- C5: the `arError` handler is total (a plain state function, it cannot
fail) and never changes `engineReady` (`arReady`), `assetReady`
(`modelReady`) or `started` (`arStarted`); it only logs, sets the failure
status text and raises the alert. -/
theorem onArError_preserves_flags (s : AppState) :
    (onArError s).arReady = s.arReady ∧
    (onArError s).modelReady = s.modelReady ∧
    (onArError s).arStarted = s.arStarted := ⟨rfl, rfl, rfl⟩

lemma startBtnClick_arReady (m : Bool) (p : Except String Unit) (a : Bool)
    (o : Except String Unit) (s : AppState) :
    (startBtnClick m p a o s).arReady = s.arReady := by
  rw [startBtnClick_eq, startAR_arReady, warmCameraPermission_arReady]; rfl

lemma startBtnClick_modelReady (m : Bool) (p : Except String Unit) (a : Bool)
    (o : Except String Unit) (s : AppState) :
    (startBtnClick m p a o s).modelReady = s.modelReady := by
  rw [startBtnClick_eq, startAR_modelReady, warmCameraPermission_modelReady]; rfl

lemma startBtnClick_arStarted_of_true (m : Bool) (p : Except String Unit)
    (a : Bool) (o : Except String Unit) (s : AppState)
    (h : s.arStarted = true) : (startBtnClick m p a o s).arStarted = true := by
  rw [startBtnClick_eq]
  have hw : (warmCameraPermission m p
      (logStatus "Requesting camera access (user gesture) ..."
        { s with startBtnDisabled := true })).arStarted = true := by
    rw [warmCameraPermission_arStarted]; exact h
  rw [startAR_noop _ _ _ hw]; exact hw

/-- C6: each of `arReady`, `modelReady` and `arStarted` is monotonic: every
operation of the controller either leaves the flag unchanged or raises it
from false to true; no operation resets a flag that is true. -/
theorem flags_monotonic (e : Event) (s : AppState) :
    (s.arReady = true → (step e s).arReady = true) ∧
    (s.modelReady = true → (step e s).modelReady = true) ∧
    (s.arStarted = true → (step e s).arStarted = true) := by
  cases e with
  | engineReady =>
      exact ⟨fun _ => onArReady_arReady s,
        fun h => (onArReady_modelReady s).trans h,
        fun h => (onArReady_arStarted s).trans h⟩
  | assetReady =>
      exact ⟨fun h => (onModelLoaded_arReady s).trans h,
        fun _ => onModelLoaded_modelReady s,
        fun h => (onModelLoaded_arStarted s).trans h⟩
  | engineError =>
      exact ⟨fun h => ((onArError_frame s).1).trans h,
        fun h => ((onArError_frame s).2.1).trans h,
        fun h => ((onArError_frame s).2.2.1).trans h⟩
  | targetFound => exact ⟨fun h => h, fun h => h, fun h => h⟩
  | targetLost => exact ⟨fun h => h, fun h => h, fun h => h⟩
  | requestStart a o =>
      refine ⟨fun h => (startAR_arReady a o s).trans h,
        fun h => (startAR_modelReady a o s).trans h, fun h => ?_⟩
      rw [show step (Event.requestStart a o) s = startAR a o s from rfl,
        startAR_noop a o s h]
      exact h
  | startClick m p a o =>
      exact ⟨fun h => (startBtnClick_arReady m p a o s).trans h,
        fun h => (startBtnClick_modelReady m p a o s).trans h,
        fun h => startBtnClick_arStarted_of_true m p a o s h⟩
  | previewClick => exact ⟨fun h => h, fun h => h, fun h => h⟩
  | stall =>
      exact ⟨fun h => ((stallCheck_flags s).1).trans h,
        fun h => ((stallCheck_flags s).2.1).trans h,
        fun h => ((stallCheck_flags s).2.2.1).trans h⟩

/-- Witness for C6: applied at a state whose flags are all true, for one event
of each kind that touches some flag. -/
theorem flags_monotonic_witness :
    (step Event.engineError readyState).arReady = true ∧
    (step (Event.requestStart true (Except.ok ())) readyState).arStarted = true ∧
    (step Event.assetReady readyState).modelReady = true :=
  ⟨(flags_monotonic Event.engineError readyState).1 rfl,
   (flags_monotonic (Event.requestStart true (Except.ok ())) readyState).2.2 rfl,
   (flags_monotonic Event.assetReady readyState).2.1 rfl⟩

/-- C7: from any state — in particular independent of the readiness flags —
`onTargetFound` immediately followed by `onTargetLost` leaves the model
visibility `false` and the guidance indicator shown. -/
theorem targetFound_then_lost (s : AppState) :
    (onTargetLost (onTargetFound s)).modelVisible = "false" ∧
    (onTargetLost (onTargetFound s)).guideDisplay = "block" := ⟨rfl, rfl⟩

/-- C8: the 8-second stall check ends with the informational stall message on
the status line exactly when the engine is not yet ready (or the message was
already there); it changes no flags, leaves the overlay, the guide, the model
visibility, the alert count and the engine-start count untouched, and its
behaviour is independent of `assetReady` (`modelReady`), which it never
consults. -/
theorem stallCheck_spec (s : AppState) (b : Bool) :
    ((stallCheck s).arReady = s.arReady ∧
     (stallCheck s).modelReady = s.modelReady ∧
     (stallCheck s).arStarted = s.arStarted) ∧
    ((stallCheck s).statusText = stallMsg ↔
      (s.arReady = false ∨ s.statusText = stallMsg)) ∧
    stallCheck { s with modelReady := b }
      = { stallCheck s with modelReady := b } ∧
    (stallCheck s).overlayDisplay = s.overlayDisplay ∧
    (stallCheck s).guideDisplay = s.guideDisplay ∧
    (stallCheck s).modelVisible = s.modelVisible ∧
    (stallCheck s).alertCount = s.alertCount ∧
    (stallCheck s).engineStartCalls = s.engineStartCalls := by
  cases h : s.arReady <;>
    simp [stallCheck, logStatus, consoleLogMsg, h]

/-- C9: the two readiness handlers are idempotent on everything observable but
the console: running `onArReady` (resp. `onModelLoaded`) a second time — its
flag then already true — leaves the flags and the whole UI target state
exactly as after the first call; the redundant recompute re-asserts the same
declarative reveal. -/
theorem ready_handlers_idempotent (s : AppState) :
    obs (onArReady (onArReady s)) = obs (onArReady s) ∧
    obs (onModelLoaded (onModelLoaded s)) = obs (onModelLoaded s) := by
  constructor
  · cases hm : s.modelReady <;>
      simp [obs, onArReady, checkHideOverlay, logStatus, consoleLogMsg, hm]
  · cases ha : s.arReady <;>
      simp [obs, onModelLoaded, checkHideOverlay, logStatus, consoleLogMsg, ha]

/-! ### Whole-session engine-start accounting -/

lemma startBtnClick_calls_of_false (m : Bool) (p : Except String Unit)
    (a : Bool) (o : Except String Unit) (s : AppState)
    (h : s.arStarted = false) :
    (startBtnClick m p a o s).engineStartCalls
      = s.engineStartCalls + (if a then 1 else 0) := by
  rw [startBtnClick_eq]
  have hw : (warmCameraPermission m p
      (logStatus "Requesting camera access (user gesture) ..."
        { s with startBtnDisabled := true })).arStarted = false := by
    rw [warmCameraPermission_arStarted]; exact h
  rw [startAR_calls_of_false _ _ _ hw, warmCameraPermission_calls]; rfl

lemma startBtnClick_arStarted_of_false (m : Bool) (p : Except String Unit)
    (a : Bool) (o : Except String Unit) (s : AppState)
    (h : s.arStarted = false) : (startBtnClick m p a o s).arStarted = true := by
  rw [startBtnClick_eq]
  have hw : (warmCameraPermission m p
      (logStatus "Requesting camera access (user gesture) ..."
        { s with startBtnDisabled := true })).arStarted = false := by
    rw [warmCameraPermission_arStarted]; exact h
  exact startAR_arStarted_of_false _ _ _ hw

lemma step_frame_of_started (e : Event) (s : AppState)
    (h : s.arStarted = true) :
    (step e s).engineStartCalls = s.engineStartCalls ∧
    (step e s).arStarted = true := by
  cases e with
  | engineReady =>
      exact ⟨onArReady_engineStartCalls s, (onArReady_arStarted s).trans h⟩
  | assetReady =>
      exact ⟨onModelLoaded_engineStartCalls s, (onModelLoaded_arStarted s).trans h⟩
  | engineError =>
      exact ⟨(onArError_frame s).2.2.2, ((onArError_frame s).2.2.1).trans h⟩
  | targetFound => exact ⟨rfl, h⟩
  | targetLost => exact ⟨rfl, h⟩
  | requestStart a o =>
      rw [show step (Event.requestStart a o) s = startAR a o s from rfl,
        startAR_noop a o s h]
      exact ⟨rfl, h⟩
  | startClick m p a o =>
      refine ⟨?_, startBtnClick_arStarted_of_true m p a o s h⟩
      rw [show step (Event.startClick m p a o) s = startBtnClick m p a o s from rfl,
        startBtnClick_eq]
      have hw : (warmCameraPermission m p
          (logStatus "Requesting camera access (user gesture) ..."
            { s with startBtnDisabled := true })).arStarted = true := by
        rw [warmCameraPermission_arStarted]; exact h
      rw [startAR_noop _ _ _ hw, warmCameraPermission_calls]; rfl
  | previewClick => exact ⟨rfl, h⟩
  | stall => exact ⟨(stallCheck_flags s).2.2.2, ((stallCheck_flags s).2.2.1).trans h⟩

lemma run_calls_of_started (evs : List Event) (s : AppState)
    (h : s.arStarted = true) :
    (run evs s).engineStartCalls = s.engineStartCalls := by
  induction evs generalizing s with
  | nil => rfl
  | cons e evs ih =>
      obtain ⟨h1, h2⟩ := step_frame_of_started e s h
      rw [show run (e :: evs) s = run evs (step e s) from rfl, ih (step e s) h2, h1]

/-- Session invariant: the engine-start operation has been invoked at most
once, and not at all while `started` is still false. -/
def startInv (s : AppState) : Prop :=
  s.engineStartCalls ≤ 1 ∧ (s.arStarted = false → s.engineStartCalls = 0)

lemma step_calls_frame_of_false (e : Event) (s : AppState)
    (h : s.arStarted = false) :
    ((step e s).arStarted = false → (step e s).engineStartCalls = 0 → True) ∧
    (step e s).engineStartCalls ≤ s.engineStartCalls + 1 := by
  refine ⟨fun _ _ => trivial, ?_⟩
  cases e with
  | engineReady =>
      rw [show step Event.engineReady s = onArReady s from rfl,
        onArReady_engineStartCalls]
      exact Nat.le_succ _
  | assetReady =>
      rw [show step Event.assetReady s = onModelLoaded s from rfl,
        onModelLoaded_engineStartCalls]
      exact Nat.le_succ _
  | engineError =>
      rw [show step Event.engineError s = onArError s from rfl,
        (onArError_frame s).2.2.2]
      exact Nat.le_succ _
  | targetFound => exact Nat.le_succ _
  | targetLost => exact Nat.le_succ _
  | requestStart a o =>
      rw [show step (Event.requestStart a o) s = startAR a o s from rfl,
        startAR_calls_of_false a o s h]
      cases a <;> simp
  | startClick m p a o =>
      rw [show step (Event.startClick m p a o) s = startBtnClick m p a o s from rfl,
        startBtnClick_calls_of_false m p a o s h]
      cases a <;> simp
  | previewClick => exact Nat.le_succ _
  | stall =>
      rw [show step Event.stall s = stallCheck s from rfl,
        (stallCheck_flags s).2.2.2]
      exact Nat.le_succ _

lemma step_preserves_startInv (e : Event) (s : AppState) (h : startInv s) :
    startInv (step e s) := by
  cases hs : s.arStarted with
  | true =>
      obtain ⟨h1, h2⟩ := step_frame_of_started e s hs
      exact ⟨h1 ▸ h.1, fun hf => absurd h2 (by rw [hf]; exact Bool.false_ne_true)⟩
  | false =>
      have h0 : s.engineStartCalls = 0 := h.2 hs
      have hle : (step e s).engineStartCalls ≤ 1 := by
        have := (step_calls_frame_of_false e s hs).2
        rw [h0] at this
        exact this
      refine ⟨hle, fun hf => ?_⟩
      cases e with
      | engineReady =>
          rw [show step Event.engineReady s = onArReady s from rfl,
            onArReady_engineStartCalls]
          exact h0
      | assetReady =>
          rw [show step Event.assetReady s = onModelLoaded s from rfl,
            onModelLoaded_engineStartCalls]
          exact h0
      | engineError =>
          rw [show step Event.engineError s = onArError s from rfl,
            (onArError_frame s).2.2.2]
          exact h0
      | targetFound => exact h0
      | targetLost => exact h0
      | requestStart a o =>
          exact absurd ((startAR_arStarted_of_false a o s hs).symm.trans hf)
            (by decide : (true : Bool) ≠ false)
      | startClick m p a o =>
          exact absurd ((startBtnClick_arStarted_of_false m p a o s hs).symm.trans hf)
            (by decide : (true : Bool) ≠ false)
      | previewClick => exact h0
      | stall =>
          rw [show step Event.stall s = stallCheck s from rfl,
            (stallCheck_flags s).2.2.2]
          exact h0

lemma run_startInv (evs : List Event) (s : AppState) (h : startInv s) :
    startInv (run evs s) := by
  induction evs generalizing s with
  | nil => exact h
  | cons e evs ih => exact ih (step e s) (step_preserves_startInv e s h)

/-- C10: when the MindAR system is missing at the first `requestStart`,
`startAR` still sets `started` before detecting this, emits the error status
and returns; the engine-start operation is invoked zero times for the rest of
the session (every later call is a no-op), and over all inputs the controller
guarantees at most one engine-start invocation, not exactly one. -/
theorem startAR_no_system (o : Except String Unit) (evs evs2 : List Event)
    (s : AppState) (h1 : s.arStarted = false) (h2 : s.engineStartCalls = 0) :
    (startAR false o s).arStarted = true ∧
    (startAR false o s).statusText = noSystemMsg ∧
    (startAR false o s).engineStartCalls = 0 ∧
    (run evs (startAR false o s)).engineStartCalls = 0 ∧
    (∀ a2 o2, startAR a2 o2 (startAR false o s) = startAR false o s) ∧
    (run evs2 s).engineStartCalls ≤ 1 := by
  have hst : (startAR false o s).arStarted = true :=
    startAR_arStarted_of_false false o s h1
  have hc : (startAR false o s).engineStartCalls = 0 := by
    rw [startAR_calls_of_false false o s h1, h2]; rfl
  refine ⟨hst, ?_, hc, ?_, ?_, ?_⟩
  · unfold startAR; rw [h1]; rfl
  · rw [run_calls_of_started evs _ hst, hc]
  · exact fun a2 o2 => startAR_noop a2 o2 _ hst
  · exact (run_startInv evs2 s ⟨by rw [h2]; exact Nat.zero_le 1, fun _ => h2⟩).1

/-- Witness for C10: concrete session whose first `requestStart` finds no AR
system; a later `requestStart` with the system present still invokes the
engine start zero times. -/
theorem startAR_no_system_witness :
    (startAR false (Except.ok ()) initState).arStarted = true ∧
    (run [Event.requestStart true (Except.ok ())]
        (startAR false (Except.ok ()) initState)).engineStartCalls = 0 := by
  have h := startAR_no_system (Except.ok ())
    [Event.requestStart true (Except.ok ())] [] initState rfl rfl
  exact ⟨h.1, h.2.2.2.1⟩
